import Mathlib

/-!
# Assembly-CSharp_CodeGen.c: the IL2CPP registration tables of Assembly-CSharp.dll

The generated file consists of three pieces of static data:

* 130 `extern` declarations of method bodies, each preceded by a metadata comment giving the
  row id of the method and its managed signature;
* the arrays `s_methodPointers` and `s_InvokerIndices`, both declared with 130 elements;
* the module descriptor `g_AssemblyU2DCSharp_CodeGenModule`, a brace initializer with
  seventeen positional values.

The embedding keeps the data as written: the declarations as records of the comment's parts
and the declared symbol, the arrays as their declared size and initializer list, and the
descriptor as its list of initializer values.
-/

namespace AssemblyCSharpCodeGen

/-- One `extern void SYMBOL (void);` declaration and the comment line above it,
`// ROWID RETURNTYPE DECLARINGTYPE::METHODNAME(PARAMTYPES)`. -/
structure MethodDecl where
  rowId : Nat
  returnType : String
  declaringType : String
  methodName : String
  paramTypes : List String
  symbol : String
deriving DecidableEq, Repr

/-- A value of the C type `Il2CppMethodPointer`: `NULL`, or the address of the function
declared under the given symbol. -/
inductive Il2CppMethodPointer where
  | null
  | fn (symbol : String)
deriving DecidableEq, Repr

/-- Contents of a C array declared with `size` elements and a brace initializer: the
initializers in order, the elements without an initializer zero-initialized. -/
def cArray {α : Type} (size : Nat) (zero : α) (init : List α) : List α :=
  (init ++ List.replicate (size - init.length) zero).take size

/-- The 130 `extern` declarations of the file with their metadata comments, in the order
written. -/
def methodDecls : List MethodDecl := [
  MethodDecl.mk 0x00000001 "System.Void" "AndroidBridge" "Awake" []
    "AndroidBridge_Awake_m2EBDFF998D9F92A54B8781C6ADA2D2BCAFB49711",
  MethodDecl.mk 0x00000002 "System.Void" "AndroidBridge" "Start" []
    "AndroidBridge_Start_mDB148C5012749CF1DA4B601986683170C66FC343",
  MethodDecl.mk 0x00000003 "System.Void" "AndroidBridge" "ReceiveMapDataFromAndroid" ["System.String"]
    "AndroidBridge_ReceiveMapDataFromAndroid_m2BE7486D0B400CDF0BAC435B022EB36078A69E1B",
  MethodDecl.mk 0x00000004 "System.Void" "AndroidBridge" "UpdateUserLocation" ["System.String"]
    "AndroidBridge_UpdateUserLocation_m581C0C550D3D0CA42599204ED4FB44CD75533E16",
  MethodDecl.mk 0x00000005 "System.Void" "AndroidBridge" "CenterOnPoint" ["System.String"]
    "AndroidBridge_CenterOnPoint_m0851AB465DA66875C0AC4C248A7DA99EB0C95D88",
  MethodDecl.mk 0x00000006 "System.Void" "AndroidBridge" "UpdateVisitedPlaces" ["System.String"]
    "AndroidBridge_UpdateVisitedPlaces_m76729A807773DA1D4C5065FE978A37ACCBAF29BA",
  MethodDecl.mk 0x00000007 "System.Void" "AndroidBridge" "FilterPOIsByType" ["System.String"]
    "AndroidBridge_FilterPOIsByType_mDBA9C251F395404228A2C5AB742B3F11C1499F2A",
  MethodDecl.mk 0x00000008 "System.Void" "AndroidBridge" "SendPOIClickedEvent" ["POIData"]
    "AndroidBridge_SendPOIClickedEvent_m9E238DB7BD70AFDECDE899DC9645F80C44D94E1B",
  MethodDecl.mk 0x00000009 "System.Void" "AndroidBridge" "SendPlaceVisitedEvent" ["System.String", "System.String"]
    "AndroidBridge_SendPlaceVisitedEvent_m64F4407C76C38C22C7277844E7DA120251B0E0BE",
  MethodDecl.mk 0x0000000A "System.Void" "AndroidBridge" "SendImpressionUpdatedEvent" ["System.String", "System.String"]
    "AndroidBridge_SendImpressionUpdatedEvent_mBEF1E87DF7DD6BDFD615910E2EA0954CAC9C4A2F",
  MethodDecl.mk 0x0000000B "System.Void" "AndroidBridge" "SendMapReadyEvent" []
    "AndroidBridge_SendMapReadyEvent_m23B4162DF168E128F6F35E3474A6E61415B92260",
  MethodDecl.mk 0x0000000C "System.Void" "AndroidBridge" "CallAndroidMethod" ["System.String", "System.String"]
    "AndroidBridge_CallAndroidMethod_m2360A3EBC21D93CDA37A6C6CFCAE72D22A1BB37F",
  MethodDecl.mk 0x0000000D "System.Void" "AndroidBridge" "OnDestroy" []
    "AndroidBridge_OnDestroy_mB75B22B15B026AC3D1D9A72E8B18FCCA096015F9",
  MethodDecl.mk 0x0000000E "System.Void" "AndroidBridge" ".ctor" []
    "AndroidBridge__ctor_mEB98A234826672CF879926A9FC346C97BE68DB2A",
  MethodDecl.mk 0x0000000F "System.Void" "MapDataFromAndroid" ".ctor" []
    "MapDataFromAndroid__ctor_mDD09778D5B56AF8C9D99141DBB3D82F01525AFC2",
  MethodDecl.mk 0x00000010 "System.Void" "MapBoundsData" ".ctor" []
    "MapBoundsData__ctor_mF020BADB428C6CEC4324CEC9C7D7EC76E4E7597C",
  MethodDecl.mk 0x00000011 "System.Void" "POIDataFromAndroid" ".ctor" []
    "POIDataFromAndroid__ctor_mD69BC23AD6C4247E1B3DB20ADC0A1D754CB8115B",
  MethodDecl.mk 0x00000012 "System.Void" "LatLngData" ".ctor" []
    "LatLngData__ctor_m20EE9EAE9529AAB8526C44290B46CEA7052831A3",
  MethodDecl.mk 0x00000013 "System.Void" "RoadData" ".ctor" []
    "RoadData__ctor_m65EB3D539FBD35527B734661634887AE4B898C4A",
  MethodDecl.mk 0x00000014 "System.Void" "POIClickedEventData" ".ctor" []
    "POIClickedEventData__ctor_m5464C093DACAA778D366136BB75D6058591B9388",
  MethodDecl.mk 0x00000015 "System.Void" "PlaceVisitedEventData" ".ctor" []
    "PlaceVisitedEventData__ctor_mCE64C65B25F0AB1570867482F2DE50CBF45D9396",
  MethodDecl.mk 0x00000016 "System.Void" "ImpressionUpdatedEventData" ".ctor" []
    "ImpressionUpdatedEventData__ctor_m9BCF8C92B18D02247953A8E06C698DF0D4054F13",
  MethodDecl.mk 0x00000017 "System.Void" "MapReadyEventData" ".ctor" []
    "MapReadyEventData__ctor_m8909EE772D7AF81EC6D429DB892284D34EDF3873",
  MethodDecl.mk 0x00000018 "System.Void" "ImpressionMenuUI" "Show" ["POIMarker"]
    "ImpressionMenuUI_Show_m8C7601FDE47CE8A31E53F633E47F551FCBEE4C7B",
  MethodDecl.mk 0x00000019 "System.Void" "ImpressionMenuUI" "Hide" []
    "ImpressionMenuUI_Hide_mF0223659A2C7CFC98A3E5EB9F9FBA8EFE887180E",
  MethodDecl.mk 0x0000001A "System.Void" "ImpressionMenuUI" "HideImmediate" []
    "ImpressionMenuUI_HideImmediate_m62710778B0CE9A3317B45D6E0E7AFBCDCECF00A3",
  MethodDecl.mk 0x0000001B "System.Void" "ImpressionMenuUI" ".ctor" []
    "ImpressionMenuUI__ctor_m4BF0A4748864BA5F89031FFA4B9D33049596F192",
  MethodDecl.mk 0x0000001C "System.Void" "MapUIManager" "Start" []
    "MapUIManager_Start_m94E58B955A98CAF6DBD29B2C9E536BBE7FEAC274",
  MethodDecl.mk 0x0000001D "System.Void" "MapUIManager" "SetupMap" []
    "MapUIManager_SetupMap_mE30B3833F565ECC0CE3E4453C5A59E4F5B45BCD9",
  MethodDecl.mk 0x0000001E "System.Void" "MapUIManager" "LoadGeoJSON" []
    "MapUIManager_LoadGeoJSON_m61F4DF46AAE983F77C4BE7F30454E4CACD450D74",
  MethodDecl.mk 0x0000001F "System.Void" "MapUIManager" "ParseGeoJSON" ["System.String"]
    "MapUIManager_ParseGeoJSON_m3F56AFDC5D2D55519709473FFD010DAB4452B3A7",
  MethodDecl.mk 0x00000020 "System.Void" "MapUIManager" "DrawRoad" ["Newtonsoft.Json.Linq.JToken"]
    "MapUIManager_DrawRoad_mF955B14EBD61235A402F575845CFE285E56AD6B5",
  MethodDecl.mk 0x00000021 "System.Void" "MapUIManager" "CreatePOIMarker" ["Newtonsoft.Json.Linq.JToken", "System.String", "System.String", "System.String"]
    "MapUIManager_CreatePOIMarker_m74052E5EA216513C0498E47B94DC29F28B0E219F",
  MethodDecl.mk 0x00000022 "UnityEngine.GameObject" "MapUIManager" "CreatePOIMarkerUI" ["UnityEngine.Vector2", "System.String"]
    "MapUIManager_CreatePOIMarkerUI_m2DA05095621C2D6FAF5EB1C776B6C61FE545D062",
  MethodDecl.mk 0x00000023 "UnityEngine.Color" "MapUIManager" "GetBackgroundColor" ["System.String"]
    "MapUIManager_GetBackgroundColor_mAD4A3B43EAE521647806295D374F8B85F21A6411",
  MethodDecl.mk 0x00000024 "System.String" "MapUIManager" "GetIconForType" ["System.String"]
    "MapUIManager_GetIconForType_mCCEC64AD58C3BF954FFE8912C3B93300A860098A",
  MethodDecl.mk 0x00000025 "UnityEngine.Vector2" "MapUIManager" "GPSToUIPosition" ["System.Single", "System.Single"]
    "MapUIManager_GPSToUIPosition_m436A04C206EACBEE940C59865BA4696486D15826",
  MethodDecl.mk 0x00000026 "System.Void" "MapUIManager" "ShowImpressionMenu" ["POIMarker"]
    "MapUIManager_ShowImpressionMenu_m7EBA3B71EBE178D1A2D8D074102109ACDDC4A9E7",
  MethodDecl.mk 0x00000027 "UnityEngine.Sprite" "MapUIManager" "CreateCircleSprite" []
    "MapUIManager_CreateCircleSprite_m1750F2203F8F5880F3D7873D31E877F7799F6EFE",
  MethodDecl.mk 0x00000028 "UnityEngine.Sprite" "MapUIManager" "CreateCheckmarkSprite" []
    "MapUIManager_CreateCheckmarkSprite_m936E363FAB5D917A4ACF0A41AE60F1B9708D0E18",
  MethodDecl.mk 0x00000029 "System.Void" "MapUIManager" "CalculateMapBounds" ["Newtonsoft.Json.Linq.JObject"]
    "MapUIManager_CalculateMapBounds_m10E4F334B66626EA742CAFDE5BDAB75E87219AA0",
  MethodDecl.mk 0x0000002A "UnityEngine.Sprite" "MapUIManager" "CreateGridSprite" []
    "MapUIManager_CreateGridSprite_m28225DDB93E10AE9CECAE81215237597FB9E3ED0",
  MethodDecl.mk 0x0000002B "System.Boolean" "MapUIManager" "IsAllowedPOIType" ["System.String"]
    "MapUIManager_IsAllowedPOIType_m744CA18313A993F493FB1C7863ABB6EFBF9096B0",
  MethodDecl.mk 0x0000002C "System.Void" "MapUIManager" "LoadMapData" ["System.String"]
    "MapUIManager_LoadMapData_m86E048B3E0750C243725A2F0C27B9FDEBFAD9309",
  MethodDecl.mk 0x0000002D "System.Void" "MapUIManager" "CenterOnPoint" ["System.Single", "System.Single"]
    "MapUIManager_CenterOnPoint_m3C192552BEB43EB0D008E1B89464644734F6E7EB",
  MethodDecl.mk 0x0000002E "System.Void" "MapUIManager" "RefreshAllMarkers" []
    "MapUIManager_RefreshAllMarkers_m374003678081425A601F0E64190119FCDCE8B6D6",
  MethodDecl.mk 0x0000002F "System.Void" "MapUIManager" "FilterByTypes" ["System.String"]
    "MapUIManager_FilterByTypes_mDF53C2D3C4FD241FA2287B4183B868101E42619C",
  MethodDecl.mk 0x00000030 "System.Void" "MapUIManager" "FilterByTypes" ["System.String[]"]
    "MapUIManager_FilterByTypes_mBA66F0D74091893EEE578F3279368A6B1A44A742",
  MethodDecl.mk 0x00000031 "System.Void" "MapUIManager" ".ctor" []
    "MapUIManager__ctor_m20929AD919EFA6D80667860B629A9D994E5B4698",
  MethodDecl.mk 0x00000032 "System.Void" "MapZoomAndPan" "Awake" []
    "MapZoomAndPan_Awake_m301AE33B1655D97E4B12FAA260F7A62A62FE7CDC",
  MethodDecl.mk 0x00000033 "System.Void" "MapZoomAndPan" "Update" []
    "MapZoomAndPan_Update_m6A3185285DF7258154F59CAE6147AFCD98E32ED1",
  MethodDecl.mk 0x00000034 "System.Void" "MapZoomAndPan" "HandleZoom" []
    "MapZoomAndPan_HandleZoom_m3D50976F2DC785492D53AC5C9DB7FB7A4402D1C9",
  MethodDecl.mk 0x00000035 "System.Void" "MapZoomAndPan" "ZoomMap" ["System.Single"]
    "MapZoomAndPan_ZoomMap_mE18874F168EC199DF39F848E10D32BECCC808199",
  MethodDecl.mk 0x00000036 "System.Void" "MapZoomAndPan" "OnBeginDrag" ["UnityEngine.EventSystems.PointerEventData"]
    "MapZoomAndPan_OnBeginDrag_mA6DA1C54164CE59E7FED9462D92DBB4A1FB1D462",
  MethodDecl.mk 0x00000037 "System.Void" "MapZoomAndPan" "OnDrag" ["UnityEngine.EventSystems.PointerEventData"]
    "MapZoomAndPan_OnDrag_mFCE0A558ADE881D440A23CCBD03AD09B847C508C",
  MethodDecl.mk 0x00000038 "System.Void" "MapZoomAndPan" "OnEndDrag" ["UnityEngine.EventSystems.PointerEventData"]
    "MapZoomAndPan_OnEndDrag_m4AFCAEE7F95613490F5CC2DFE2941E323CFF849F",
  MethodDecl.mk 0x00000039 "System.Void" "MapZoomAndPan" "ApplyInertia" []
    "MapZoomAndPan_ApplyInertia_m5C6B3D7D957B5BF17C250CCD9C3D97BA7DC6107D",
  MethodDecl.mk 0x0000003A "System.Void" "MapZoomAndPan" "CenterOnPoint" ["UnityEngine.Vector2"]
    "MapZoomAndPan_CenterOnPoint_m4BA49F39F71CE2D5E741A97AB27659990C83AC84",
  MethodDecl.mk 0x0000003B "System.Void" "MapZoomAndPan" ".ctor" []
    "MapZoomAndPan__ctor_mAE22A13951D3628C973C0E343A699033B8DA57F5",
  MethodDecl.mk 0x0000003C "System.Void" "PlayerLocationMarker" "Start" []
    "PlayerLocationMarker_Start_m17298977D7B664681311FAF3AC8CE22758056EF3",
  MethodDecl.mk 0x0000003D "System.Void" "PlayerLocationMarker" "Update" []
    "PlayerLocationMarker_Update_m17D2AD5FBFDCEDE518745A8B14A4ABFEC636A5D0",
  MethodDecl.mk 0x0000003E "System.Void" "PlayerLocationMarker" "UpdatePosition" []
    "PlayerLocationMarker_UpdatePosition_m3956ABD9BC5C6A037A9CA9E0C3BDBC56A25D1BF0",
  MethodDecl.mk 0x0000003F "System.Void" "PlayerLocationMarker" "SetLocation" ["System.Single", "System.Single"]
    "PlayerLocationMarker_SetLocation_mFAD393865C9885468141FC6BE5CA3171354A5607",
  MethodDecl.mk 0x00000040 "System.Void" "PlayerLocationMarker" "UpdateLocationFromAndroid" ["System.String"]
    "PlayerLocationMarker_UpdateLocationFromAndroid_m892D110FC88D9EC11C61B0421E321D3228AB16AF",
  MethodDecl.mk 0x00000041 "System.Void" "PlayerLocationMarker" ".ctor" []
    "PlayerLocationMarker__ctor_m9B6D9738A0F6C034D4234A6EC393AA675FD178A3",
  MethodDecl.mk 0x00000042 "System.Collections.IEnumerator" "POIAnimator" "AppearAnimation" []
    "POIAnimator_AppearAnimation_mE02E5885D7FF76028A876E458D246386C0B85A44",
  MethodDecl.mk 0x00000043 "System.Void" "POIAnimator" "PlayClickAnimation" []
    "POIAnimator_PlayClickAnimation_mED06DBA266F9836C314790D43DF678CED625B198",
  MethodDecl.mk 0x00000044 "System.Collections.IEnumerator" "POIAnimator" "ClickAnimation" []
    "POIAnimator_ClickAnimation_mF2F2AA17CF8F90D15575D02CD84A768957A36CEE",
  MethodDecl.mk 0x00000045 "System.Void" "POIAnimator" "PlayVisitedAnimation" []
    "POIAnimator_PlayVisitedAnimation_mE9E2F3209D8F236B82ACB33163753FBC8DB373B4",
  MethodDecl.mk 0x00000046 "System.Collections.IEnumerator" "POIAnimator" "VisitedAnimation" []
    "POIAnimator_VisitedAnimation_mB29CA12FA12D894EDF4886E6DBBCA0C1E1D407D7",
  MethodDecl.mk 0x00000047 "System.Void" "POIAnimator" ".ctor" []
    "POIAnimator__ctor_m42CF0A892C73836B6FF87252114393C9E4296D72",
  MethodDecl.mk 0x00000048 "System.Void" "POIAnimator/<AppearAnimation>d__8" ".ctor" ["System.Int32"]
    "U3CAppearAnimationU3Ed__8__ctor_mA181E83F4C37F26A16BA4B330EF613AE47A686BC",
  MethodDecl.mk 0x00000049 "System.Void" "POIAnimator/<AppearAnimation>d__8" "System.IDisposable.Dispose" []
    "U3CAppearAnimationU3Ed__8_System_IDisposable_Dispose_mE78CF9B5AE81B237073A57A0B352837F1FFF06A4",
  MethodDecl.mk 0x0000004A "System.Boolean" "POIAnimator/<AppearAnimation>d__8" "MoveNext" []
    "U3CAppearAnimationU3Ed__8_MoveNext_m7BC0CA2734BAC4B7F1540C9B18B54792B91877FE",
  MethodDecl.mk 0x0000004B "System.Object" "POIAnimator/<AppearAnimation>d__8" "System.Collections.Generic.IEnumerator<System.Object>.get_Current" []
    "U3CAppearAnimationU3Ed__8_System_Collections_Generic_IEnumeratorU3CSystem_ObjectU3E_get_Current_m105582E3C82F6E4D5D24608734780BE8586EE875",
  MethodDecl.mk 0x0000004C "System.Void" "POIAnimator/<AppearAnimation>d__8" "System.Collections.IEnumerator.Reset" []
    "U3CAppearAnimationU3Ed__8_System_Collections_IEnumerator_Reset_m513775C3CB98F0435A1B4AB2FA6E253E5DF4B8BD",
  MethodDecl.mk 0x0000004D "System.Object" "POIAnimator/<AppearAnimation>d__8" "System.Collections.IEnumerator.get_Current" []
    "U3CAppearAnimationU3Ed__8_System_Collections_IEnumerator_get_Current_m51FAB4CB17D0BD32B4BD8896AF10C80BA0E20B42",
  MethodDecl.mk 0x0000004E "System.Void" "POIAnimator/<ClickAnimation>d__10" ".ctor" ["System.Int32"]
    "U3CClickAnimationU3Ed__10__ctor_mC3D4DD25B141F0298C4AA2AFE9833ED810C0405B",
  MethodDecl.mk 0x0000004F "System.Void" "POIAnimator/<ClickAnimation>d__10" "System.IDisposable.Dispose" []
    "U3CClickAnimationU3Ed__10_System_IDisposable_Dispose_m10F35C33EF9EFF370CB706AD1EAAB1594861085D",
  MethodDecl.mk 0x00000050 "System.Boolean" "POIAnimator/<ClickAnimation>d__10" "MoveNext" []
    "U3CClickAnimationU3Ed__10_MoveNext_mE9D25298733CF9BC598E7AE7AB154D382A192D15",
  MethodDecl.mk 0x00000051 "System.Object" "POIAnimator/<ClickAnimation>d__10" "System.Collections.Generic.IEnumerator<System.Object>.get_Current" []
    "U3CClickAnimationU3Ed__10_System_Collections_Generic_IEnumeratorU3CSystem_ObjectU3E_get_Current_m3299B7D62B0EB484E3773E0A4FB161AC8BCC41D1",
  MethodDecl.mk 0x00000052 "System.Void" "POIAnimator/<ClickAnimation>d__10" "System.Collections.IEnumerator.Reset" []
    "U3CClickAnimationU3Ed__10_System_Collections_IEnumerator_Reset_m218B3B7C4BFE78CFB8AB5F6968C7045CB727FD8B",
  MethodDecl.mk 0x00000053 "System.Object" "POIAnimator/<ClickAnimation>d__10" "System.Collections.IEnumerator.get_Current" []
    "U3CClickAnimationU3Ed__10_System_Collections_IEnumerator_get_Current_m63C407960660F337077845ABA849EEE163F29462",
  MethodDecl.mk 0x00000054 "System.Void" "POIAnimator/<VisitedAnimation>d__12" ".ctor" ["System.Int32"]
    "U3CVisitedAnimationU3Ed__12__ctor_m9A83CA354DF341A904E56B850EC6C95FFAD832FC",
  MethodDecl.mk 0x00000055 "System.Void" "POIAnimator/<VisitedAnimation>d__12" "System.IDisposable.Dispose" []
    "U3CVisitedAnimationU3Ed__12_System_IDisposable_Dispose_m1259666982DDB51BBE2D434304A82DB3975F7DD5",
  MethodDecl.mk 0x00000056 "System.Boolean" "POIAnimator/<VisitedAnimation>d__12" "MoveNext" []
    "U3CVisitedAnimationU3Ed__12_MoveNext_m2AB40E0EC67A44DF6B7E5F5868D044F22F437B7B",
  MethodDecl.mk 0x00000057 "System.Object" "POIAnimator/<VisitedAnimation>d__12" "System.Collections.Generic.IEnumerator<System.Object>.get_Current" []
    "U3CVisitedAnimationU3Ed__12_System_Collections_Generic_IEnumeratorU3CSystem_ObjectU3E_get_Current_m0990B5EFBF656D3C7A31DA85A137F24EED4DDC0B",
  MethodDecl.mk 0x00000058 "System.Void" "POIAnimator/<VisitedAnimation>d__12" "System.Collections.IEnumerator.Reset" []
    "U3CVisitedAnimationU3Ed__12_System_Collections_IEnumerator_Reset_m187DF10773469BCF2FAA9D84AAED86E3E362E1DC",
  MethodDecl.mk 0x00000059 "System.Object" "POIAnimator/<VisitedAnimation>d__12" "System.Collections.IEnumerator.get_Current" []
    "U3CVisitedAnimationU3Ed__12_System_Collections_IEnumerator_get_Current_m7A877BBAC6942328D2A6CEEBD991FDC267D46BD0",
  MethodDecl.mk 0x0000005A "System.Void" "POIData" ".ctor" []
    "POIData__ctor_mB8FCE164FB30926A9229B5B1E143BCA2A7F90B8D",
  MethodDecl.mk 0x0000005B "System.Void" "POIData" ".ctor" ["System.String", "System.String", "System.String", "System.Single", "System.Single"]
    "POIData__ctor_m71284567C6FF19CA57551E5AA6EDE854B38E5735",
  MethodDecl.mk 0x0000005C "System.String" "POIData" "GetEmoji" []
    "POIData_GetEmoji_mBFE57C443F531B99712592A8E1C474566CD40125",
  MethodDecl.mk 0x0000005D "System.Void" "POIDataList" ".ctor" []
    "POIDataList__ctor_m6AF3F6FF91243E55D1DC3C02FE2FA63B8851FAB4",
  MethodDecl.mk 0x0000005E "System.Void" "POIDetailPanel" "Start" []
    "POIDetailPanel_Start_m5BF95353C836C2D077953C55F5FC30FE3A3844EE",
  MethodDecl.mk 0x0000005F "System.Void" "POIDetailPanel" "BindButtons" []
    "POIDetailPanel_BindButtons_mA56A1C25F6DCBB22B28F2A680BC05551AA2CED32",
  MethodDecl.mk 0x00000060 "System.Void" "POIDetailPanel" "Show" ["POIData"]
    "POIDetailPanel_Show_mF163A05E0E0210B0897CD16ADCB8BD9F97F4B68D",
  MethodDecl.mk 0x00000061 "System.Void" "POIDetailPanel" "Hide" []
    "POIDetailPanel_Hide_mF11828DCEBA80A1556685B408E17823327E1B737",
  MethodDecl.mk 0x00000062 "System.Void" "POIDetailPanel" "UpdateButtons" []
    "POIDetailPanel_UpdateButtons_m526899FC923D2B55DD4CF3DB661E1431BC31644B",
  MethodDecl.mk 0x00000063 "System.Void" "POIDetailPanel" "OnVisitButtonClicked" []
    "POIDetailPanel_OnVisitButtonClicked_mCE3C62107168157248ED65C97EA19665AE4A3AF4",
  MethodDecl.mk 0x00000064 "System.Void" "POIDetailPanel" "OnFavoriteButtonClicked" []
    "POIDetailPanel_OnFavoriteButtonClicked_mEDB57DF4F554D638FA6E685575F719BF494E1B12",
  MethodDecl.mk 0x00000065 "POIDetailPanel" "POIDetailPanel" "CreateIfMissing" []
    "POIDetailPanel_CreateIfMissing_m6D1B64C9BA857E14442FE0572292EEC37959392D",
  MethodDecl.mk 0x00000066 "UnityEngine.GameObject" "POIDetailPanel" "CreateButton" ["System.String", "System.String", "UnityEngine.Color"]
    "POIDetailPanel_CreateButton_m430239A0B6F5D8BED53D7C459B8A17211AAEB1B0",
  MethodDecl.mk 0x00000067 "System.Void" "POIDetailPanel" ".ctor" []
    "POIDetailPanel__ctor_m32CBC3ED9B193B0CEFB7CD7EECDD0BBCE7F1ADCF",
  MethodDecl.mk 0x00000068 "System.Void" "POIMarker" "Start" []
    "POIMarker_Start_mD09DDE7A1423F72296CC39FFD18B1564CF5403C0",
  MethodDecl.mk 0x00000069 "System.Void" "POIMarker" "Discover" []
    "POIMarker_Discover_m1D15F2281AFBEDEDCD2FFC834EB9D04B232B2275",
  MethodDecl.mk 0x0000006A "System.Void" "POIMarker" "Initialize" ["POIData"]
    "POIMarker_Initialize_m20E6F7E7F10051F1CBC521CC0FBAA93A045819CB",
  MethodDecl.mk 0x0000006B "System.Void" "POIMarker" "UpdateVisuals" []
    "POIMarker_UpdateVisuals_m457E743BAAD05534A3422FC29C944C5F1F8AE373",
  MethodDecl.mk 0x0000006C "System.Void" "POIMarker" "RefreshUI" []
    "POIMarker_RefreshUI_m0646764C529CCFE9FC06A0B7C3B22576E78EBEA1",
  MethodDecl.mk 0x0000006D "System.Boolean" "POIMarker" "HasTag" ["System.String"]
    "POIMarker_HasTag_mD3EA03BE96B249986BEAB124718B397993268769",
  MethodDecl.mk 0x0000006E "System.Void" "POIMarker" "OnMarkerTapped" []
    "POIMarker_OnMarkerTapped_m34468701E4B8E22C26C1CB09F5B82661A918B1B8",
  MethodDecl.mk 0x0000006F "System.String" "POIMarker" "GetEmojiPath" ["System.String"]
    "POIMarker_GetEmojiPath_m767E4863FE588FDD6DF8E054C067EFF7FFEDFB2B",
  MethodDecl.mk 0x00000070 "UnityEngine.Color" "POIMarker" "GetBackgroundColor" ["System.String"]
    "POIMarker_GetBackgroundColor_mCD94D2EA6DB52341507DF892C35728FD249B9059",
  MethodDecl.mk 0x00000071 "System.String" "POIMarker" "DetermineTypeFromTags" ["System.Collections.Generic.List`1<System.String>"]
    "POIMarker_DetermineTypeFromTags_m609450EA400E6D9467F470FCA9D6A570ADF3F33D",
  MethodDecl.mk 0x00000072 "System.Void" "POIMarker" ".ctor" []
    "POIMarker__ctor_mC07E42CC5719634F0545D0E004626D7B7F07A43A",
  MethodDecl.mk 0x00000073 "UnityEngine.Vector2[]" "UILineRenderer" "get_Points" []
    "UILineRenderer_get_Points_m325AE1F286479BBDF6A587C3DA29EAF537A54C45",
  MethodDecl.mk 0x00000074 "System.Void" "UILineRenderer" "set_Points" ["UnityEngine.Vector2[]"]
    "UILineRenderer_set_Points_mA737E09F25AC48D64C8B94D2AE06E54CFDA92594",
  MethodDecl.mk 0x00000075 "System.Void" "UILineRenderer" "OnPopulateMesh" ["UnityEngine.UI.VertexHelper"]
    "UILineRenderer_OnPopulateMesh_m7D1E2272635C257F57043FC7A7D4C4D31C83E305",
  MethodDecl.mk 0x00000076 "System.Void" "UILineRenderer" "SetPoints" ["UnityEngine.Vector2[]"]
    "UILineRenderer_SetPoints_m39934376332A8BEEE748829A2CACC89C1E953811",
  MethodDecl.mk 0x00000077 "System.Void" "UILineRenderer" ".ctor" []
    "UILineRenderer__ctor_m30255CA97D396FF651EDF03918B9FA964E5DC81E",
  MethodDecl.mk 0x00000078 "VisitedPlacesManager" "VisitedPlacesManager" "get_Instance" []
    "VisitedPlacesManager_get_Instance_mE360325174A0C1150501EE3C4317D80E9B7823E9",
  MethodDecl.mk 0x00000079 "System.Void" "VisitedPlacesManager" "Awake" []
    "VisitedPlacesManager_Awake_m6B3B0D9A4587202BA31BC46EE5A312433233C676",
  MethodDecl.mk 0x0000007A "System.Void" "VisitedPlacesManager" "MarkAsVisited" ["System.String", "System.String"]
    "VisitedPlacesManager_MarkAsVisited_mE736D76AE9A76043B58BFB2187699EBC13CB895B",
  MethodDecl.mk 0x0000007B "System.Boolean" "VisitedPlacesManager" "IsVisited" ["System.String"]
    "VisitedPlacesManager_IsVisited_m6E08E434E409D311073352663FDB3F280E9E9FBE",
  MethodDecl.mk 0x0000007C "System.String" "VisitedPlacesManager" "GetImpression" ["System.String"]
    "VisitedPlacesManager_GetImpression_m7E95355D4CD3A005628EAB2098057343C9070AEF",
  MethodDecl.mk 0x0000007D "System.Void" "VisitedPlacesManager" "UpdateImpression" ["System.String", "System.String"]
    "VisitedPlacesManager_UpdateImpression_mBFFCEB161C40B259F34559FB098B000BA0D3ABD2",
  MethodDecl.mk 0x0000007E "System.Void" "VisitedPlacesManager" "SaveVisitedPlaces" []
    "VisitedPlacesManager_SaveVisitedPlaces_mCBE51BE6E208CB5C751CF520355387D38B18E1BA",
  MethodDecl.mk 0x0000007F "System.Void" "VisitedPlacesManager" "LoadVisitedPlaces" []
    "VisitedPlacesManager_LoadVisitedPlaces_m6E584B9186153722C7C1ED2956C9DC28C5C00308",
  MethodDecl.mk 0x00000080 "System.Void" "VisitedPlacesManager" ".ctor" []
    "VisitedPlacesManager__ctor_mCEB2CED6AF4800FF735951B290918C8E7733CD44",
  MethodDecl.mk 0x00000081 "System.Void" "VisitedPlacesManager/SaveData" ".ctor" []
    "SaveData__ctor_m5AC58C8EA3C04ECE504E3C7E6124431EE532AFCC",
  MethodDecl.mk 0x00000082 "System.Void" "VisitedPlacesManager/ImpressionData" ".ctor" []
    "ImpressionData__ctor_mE302F744F3DB3D6CC79990F9A961BE1C72F0693D"
]

/-- The identifiers listed in the initializer of `s_methodPointers`, in the order written. -/
def s_methodPointers_init : List String := [
  "AndroidBridge_Awake_m2EBDFF998D9F92A54B8781C6ADA2D2BCAFB49711",
  "AndroidBridge_Start_mDB148C5012749CF1DA4B601986683170C66FC343",
  "AndroidBridge_ReceiveMapDataFromAndroid_m2BE7486D0B400CDF0BAC435B022EB36078A69E1B",
  "AndroidBridge_UpdateUserLocation_m581C0C550D3D0CA42599204ED4FB44CD75533E16",
  "AndroidBridge_CenterOnPoint_m0851AB465DA66875C0AC4C248A7DA99EB0C95D88",
  "AndroidBridge_UpdateVisitedPlaces_m76729A807773DA1D4C5065FE978A37ACCBAF29BA",
  "AndroidBridge_FilterPOIsByType_mDBA9C251F395404228A2C5AB742B3F11C1499F2A",
  "AndroidBridge_SendPOIClickedEvent_m9E238DB7BD70AFDECDE899DC9645F80C44D94E1B",
  "AndroidBridge_SendPlaceVisitedEvent_m64F4407C76C38C22C7277844E7DA120251B0E0BE",
  "AndroidBridge_SendImpressionUpdatedEvent_mBEF1E87DF7DD6BDFD615910E2EA0954CAC9C4A2F",
  "AndroidBridge_SendMapReadyEvent_m23B4162DF168E128F6F35E3474A6E61415B92260",
  "AndroidBridge_CallAndroidMethod_m2360A3EBC21D93CDA37A6C6CFCAE72D22A1BB37F",
  "AndroidBridge_OnDestroy_mB75B22B15B026AC3D1D9A72E8B18FCCA096015F9",
  "AndroidBridge__ctor_mEB98A234826672CF879926A9FC346C97BE68DB2A",
  "MapDataFromAndroid__ctor_mDD09778D5B56AF8C9D99141DBB3D82F01525AFC2",
  "MapBoundsData__ctor_mF020BADB428C6CEC4324CEC9C7D7EC76E4E7597C",
  "POIDataFromAndroid__ctor_mD69BC23AD6C4247E1B3DB20ADC0A1D754CB8115B",
  "LatLngData__ctor_m20EE9EAE9529AAB8526C44290B46CEA7052831A3",
  "RoadData__ctor_m65EB3D539FBD35527B734661634887AE4B898C4A",
  "POIClickedEventData__ctor_m5464C093DACAA778D366136BB75D6058591B9388",
  "PlaceVisitedEventData__ctor_mCE64C65B25F0AB1570867482F2DE50CBF45D9396",
  "ImpressionUpdatedEventData__ctor_m9BCF8C92B18D02247953A8E06C698DF0D4054F13",
  "MapReadyEventData__ctor_m8909EE772D7AF81EC6D429DB892284D34EDF3873",
  "ImpressionMenuUI_Show_m8C7601FDE47CE8A31E53F633E47F551FCBEE4C7B",
  "ImpressionMenuUI_Hide_mF0223659A2C7CFC98A3E5EB9F9FBA8EFE887180E",
  "ImpressionMenuUI_HideImmediate_m62710778B0CE9A3317B45D6E0E7AFBCDCECF00A3",
  "ImpressionMenuUI__ctor_m4BF0A4748864BA5F89031FFA4B9D33049596F192",
  "MapUIManager_Start_m94E58B955A98CAF6DBD29B2C9E536BBE7FEAC274",
  "MapUIManager_SetupMap_mE30B3833F565ECC0CE3E4453C5A59E4F5B45BCD9",
  "MapUIManager_LoadGeoJSON_m61F4DF46AAE983F77C4BE7F30454E4CACD450D74",
  "MapUIManager_ParseGeoJSON_m3F56AFDC5D2D55519709473FFD010DAB4452B3A7",
  "MapUIManager_DrawRoad_mF955B14EBD61235A402F575845CFE285E56AD6B5",
  "MapUIManager_CreatePOIMarker_m74052E5EA216513C0498E47B94DC29F28B0E219F",
  "MapUIManager_CreatePOIMarkerUI_m2DA05095621C2D6FAF5EB1C776B6C61FE545D062",
  "MapUIManager_GetBackgroundColor_mAD4A3B43EAE521647806295D374F8B85F21A6411",
  "MapUIManager_GetIconForType_mCCEC64AD58C3BF954FFE8912C3B93300A860098A",
  "MapUIManager_GPSToUIPosition_m436A04C206EACBEE940C59865BA4696486D15826",
  "MapUIManager_ShowImpressionMenu_m7EBA3B71EBE178D1A2D8D074102109ACDDC4A9E7",
  "MapUIManager_CreateCircleSprite_m1750F2203F8F5880F3D7873D31E877F7799F6EFE",
  "MapUIManager_CreateCheckmarkSprite_m936E363FAB5D917A4ACF0A41AE60F1B9708D0E18",
  "MapUIManager_CalculateMapBounds_m10E4F334B66626EA742CAFDE5BDAB75E87219AA0",
  "MapUIManager_CreateGridSprite_m28225DDB93E10AE9CECAE81215237597FB9E3ED0",
  "MapUIManager_IsAllowedPOIType_m744CA18313A993F493FB1C7863ABB6EFBF9096B0",
  "MapUIManager_LoadMapData_m86E048B3E0750C243725A2F0C27B9FDEBFAD9309",
  "MapUIManager_CenterOnPoint_m3C192552BEB43EB0D008E1B89464644734F6E7EB",
  "MapUIManager_RefreshAllMarkers_m374003678081425A601F0E64190119FCDCE8B6D6",
  "MapUIManager_FilterByTypes_mDF53C2D3C4FD241FA2287B4183B868101E42619C",
  "MapUIManager_FilterByTypes_mBA66F0D74091893EEE578F3279368A6B1A44A742",
  "MapUIManager__ctor_m20929AD919EFA6D80667860B629A9D994E5B4698",
  "MapZoomAndPan_Awake_m301AE33B1655D97E4B12FAA260F7A62A62FE7CDC",
  "MapZoomAndPan_Update_m6A3185285DF7258154F59CAE6147AFCD98E32ED1",
  "MapZoomAndPan_HandleZoom_m3D50976F2DC785492D53AC5C9DB7FB7A4402D1C9",
  "MapZoomAndPan_ZoomMap_mE18874F168EC199DF39F848E10D32BECCC808199",
  "MapZoomAndPan_OnBeginDrag_mA6DA1C54164CE59E7FED9462D92DBB4A1FB1D462",
  "MapZoomAndPan_OnDrag_mFCE0A558ADE881D440A23CCBD03AD09B847C508C",
  "MapZoomAndPan_OnEndDrag_m4AFCAEE7F95613490F5CC2DFE2941E323CFF849F",
  "MapZoomAndPan_ApplyInertia_m5C6B3D7D957B5BF17C250CCD9C3D97BA7DC6107D",
  "MapZoomAndPan_CenterOnPoint_m4BA49F39F71CE2D5E741A97AB27659990C83AC84",
  "MapZoomAndPan__ctor_mAE22A13951D3628C973C0E343A699033B8DA57F5",
  "PlayerLocationMarker_Start_m17298977D7B664681311FAF3AC8CE22758056EF3",
  "PlayerLocationMarker_Update_m17D2AD5FBFDCEDE518745A8B14A4ABFEC636A5D0",
  "PlayerLocationMarker_UpdatePosition_m3956ABD9BC5C6A037A9CA9E0C3BDBC56A25D1BF0",
  "PlayerLocationMarker_SetLocation_mFAD393865C9885468141FC6BE5CA3171354A5607",
  "PlayerLocationMarker_UpdateLocationFromAndroid_m892D110FC88D9EC11C61B0421E321D3228AB16AF",
  "PlayerLocationMarker__ctor_m9B6D9738A0F6C034D4234A6EC393AA675FD178A3",
  "POIAnimator_AppearAnimation_mE02E5885D7FF76028A876E458D246386C0B85A44",
  "POIAnimator_PlayClickAnimation_mED06DBA266F9836C314790D43DF678CED625B198",
  "POIAnimator_ClickAnimation_mF2F2AA17CF8F90D15575D02CD84A768957A36CEE",
  "POIAnimator_PlayVisitedAnimation_mE9E2F3209D8F236B82ACB33163753FBC8DB373B4",
  "POIAnimator_VisitedAnimation_mB29CA12FA12D894EDF4886E6DBBCA0C1E1D407D7",
  "POIAnimator__ctor_m42CF0A892C73836B6FF87252114393C9E4296D72",
  "U3CAppearAnimationU3Ed__8__ctor_mA181E83F4C37F26A16BA4B330EF613AE47A686BC",
  "U3CAppearAnimationU3Ed__8_System_IDisposable_Dispose_mE78CF9B5AE81B237073A57A0B352837F1FFF06A4",
  "U3CAppearAnimationU3Ed__8_MoveNext_m7BC0CA2734BAC4B7F1540C9B18B54792B91877FE",
  "U3CAppearAnimationU3Ed__8_System_Collections_Generic_IEnumeratorU3CSystem_ObjectU3E_get_Current_m105582E3C82F6E4D5D24608734780BE8586EE875",
  "U3CAppearAnimationU3Ed__8_System_Collections_IEnumerator_Reset_m513775C3CB98F0435A1B4AB2FA6E253E5DF4B8BD",
  "U3CAppearAnimationU3Ed__8_System_Collections_IEnumerator_get_Current_m51FAB4CB17D0BD32B4BD8896AF10C80BA0E20B42",
  "U3CClickAnimationU3Ed__10__ctor_mC3D4DD25B141F0298C4AA2AFE9833ED810C0405B",
  "U3CClickAnimationU3Ed__10_System_IDisposable_Dispose_m10F35C33EF9EFF370CB706AD1EAAB1594861085D",
  "U3CClickAnimationU3Ed__10_MoveNext_mE9D25298733CF9BC598E7AE7AB154D382A192D15",
  "U3CClickAnimationU3Ed__10_System_Collections_Generic_IEnumeratorU3CSystem_ObjectU3E_get_Current_m3299B7D62B0EB484E3773E0A4FB161AC8BCC41D1",
  "U3CClickAnimationU3Ed__10_System_Collections_IEnumerator_Reset_m218B3B7C4BFE78CFB8AB5F6968C7045CB727FD8B",
  "U3CClickAnimationU3Ed__10_System_Collections_IEnumerator_get_Current_m63C407960660F337077845ABA849EEE163F29462",
  "U3CVisitedAnimationU3Ed__12__ctor_m9A83CA354DF341A904E56B850EC6C95FFAD832FC",
  "U3CVisitedAnimationU3Ed__12_System_IDisposable_Dispose_m1259666982DDB51BBE2D434304A82DB3975F7DD5",
  "U3CVisitedAnimationU3Ed__12_MoveNext_m2AB40E0EC67A44DF6B7E5F5868D044F22F437B7B",
  "U3CVisitedAnimationU3Ed__12_System_Collections_Generic_IEnumeratorU3CSystem_ObjectU3E_get_Current_m0990B5EFBF656D3C7A31DA85A137F24EED4DDC0B",
  "U3CVisitedAnimationU3Ed__12_System_Collections_IEnumerator_Reset_m187DF10773469BCF2FAA9D84AAED86E3E362E1DC",
  "U3CVisitedAnimationU3Ed__12_System_Collections_IEnumerator_get_Current_m7A877BBAC6942328D2A6CEEBD991FDC267D46BD0",
  "POIData__ctor_mB8FCE164FB30926A9229B5B1E143BCA2A7F90B8D",
  "POIData__ctor_m71284567C6FF19CA57551E5AA6EDE854B38E5735",
  "POIData_GetEmoji_mBFE57C443F531B99712592A8E1C474566CD40125",
  "POIDataList__ctor_m6AF3F6FF91243E55D1DC3C02FE2FA63B8851FAB4",
  "POIDetailPanel_Start_m5BF95353C836C2D077953C55F5FC30FE3A3844EE",
  "POIDetailPanel_BindButtons_mA56A1C25F6DCBB22B28F2A680BC05551AA2CED32",
  "POIDetailPanel_Show_mF163A05E0E0210B0897CD16ADCB8BD9F97F4B68D",
  "POIDetailPanel_Hide_mF11828DCEBA80A1556685B408E17823327E1B737",
  "POIDetailPanel_UpdateButtons_m526899FC923D2B55DD4CF3DB661E1431BC31644B",
  "POIDetailPanel_OnVisitButtonClicked_mCE3C62107168157248ED65C97EA19665AE4A3AF4",
  "POIDetailPanel_OnFavoriteButtonClicked_mEDB57DF4F554D638FA6E685575F719BF494E1B12",
  "POIDetailPanel_CreateIfMissing_m6D1B64C9BA857E14442FE0572292EEC37959392D",
  "POIDetailPanel_CreateButton_m430239A0B6F5D8BED53D7C459B8A17211AAEB1B0",
  "POIDetailPanel__ctor_m32CBC3ED9B193B0CEFB7CD7EECDD0BBCE7F1ADCF",
  "POIMarker_Start_mD09DDE7A1423F72296CC39FFD18B1564CF5403C0",
  "POIMarker_Discover_m1D15F2281AFBEDEDCD2FFC834EB9D04B232B2275",
  "POIMarker_Initialize_m20E6F7E7F10051F1CBC521CC0FBAA93A045819CB",
  "POIMarker_UpdateVisuals_m457E743BAAD05534A3422FC29C944C5F1F8AE373",
  "POIMarker_RefreshUI_m0646764C529CCFE9FC06A0B7C3B22576E78EBEA1",
  "POIMarker_HasTag_mD3EA03BE96B249986BEAB124718B397993268769",
  "POIMarker_OnMarkerTapped_m34468701E4B8E22C26C1CB09F5B82661A918B1B8",
  "POIMarker_GetEmojiPath_m767E4863FE588FDD6DF8E054C067EFF7FFEDFB2B",
  "POIMarker_GetBackgroundColor_mCD94D2EA6DB52341507DF892C35728FD249B9059",
  "POIMarker_DetermineTypeFromTags_m609450EA400E6D9467F470FCA9D6A570ADF3F33D",
  "POIMarker__ctor_mC07E42CC5719634F0545D0E004626D7B7F07A43A",
  "UILineRenderer_get_Points_m325AE1F286479BBDF6A587C3DA29EAF537A54C45",
  "UILineRenderer_set_Points_mA737E09F25AC48D64C8B94D2AE06E54CFDA92594",
  "UILineRenderer_OnPopulateMesh_m7D1E2272635C257F57043FC7A7D4C4D31C83E305",
  "UILineRenderer_SetPoints_m39934376332A8BEEE748829A2CACC89C1E953811",
  "UILineRenderer__ctor_m30255CA97D396FF651EDF03918B9FA964E5DC81E",
  "VisitedPlacesManager_get_Instance_mE360325174A0C1150501EE3C4317D80E9B7823E9",
  "VisitedPlacesManager_Awake_m6B3B0D9A4587202BA31BC46EE5A312433233C676",
  "VisitedPlacesManager_MarkAsVisited_mE736D76AE9A76043B58BFB2187699EBC13CB895B",
  "VisitedPlacesManager_IsVisited_m6E08E434E409D311073352663FDB3F280E9E9FBE",
  "VisitedPlacesManager_GetImpression_m7E95355D4CD3A005628EAB2098057343C9070AEF",
  "VisitedPlacesManager_UpdateImpression_mBFFCEB161C40B259F34559FB098B000BA0D3ABD2",
  "VisitedPlacesManager_SaveVisitedPlaces_mCBE51BE6E208CB5C751CF520355387D38B18E1BA",
  "VisitedPlacesManager_LoadVisitedPlaces_m6E584B9186153722C7C1ED2956C9DC28C5C00308",
  "VisitedPlacesManager__ctor_mCEB2CED6AF4800FF735951B290918C8E7733CD44",
  "SaveData__ctor_m5AC58C8EA3C04ECE504E3C7E6124431EE532AFCC",
  "ImpressionData__ctor_mE302F744F3DB3D6CC79990F9A961BE1C72F0693D"
]

/-- The integers listed in the initializer of `s_InvokerIndices`, in the order written (one a
line in the source). -/
def s_InvokerIndices_init : List Int := [
  4868, 4868, 3953, 3953, 3953, 3953, 3953, 3953, 2247, 2247,
  4868, 2247, 4868, 4868, 4868, 4868, 4868, 4868, 4868, 4868,
  4868, 4868, 4868, 3953, 4868, 4868, 4868, 4868, 4868, 4868,
  3953, 3953, 914, 1801, 3031, 3512, 1835, 3953, 4755, 4755,
  3953, 4755, 2832, 3953, 2276, 4868, 3953, 3953, 4868, 4868,
  4868, 4868, 3988, 3953, 3953, 3953, 4868, 4045, 4868, 4868,
  4868, 4868, 2276, 3953, 4868, 4755, 4868, 4755, 4868, 4755,
  4868, 3933, 4868, 4686, 4755, 4868, 4755, 3933, 4868, 4686,
  4755, 4868, 4755, 3933, 4868, 4686, 4755, 4868, 4755, 4868,
  482, 4755, 4868, 4868, 4868, 3953, 4868, 4868, 4868, 4868,
  7253, 5932, 4868, 4868, 4868, 3953, 4868, 4868, 2832, 4868,
  3512, 3031, 3512, 4868, 4755, 3953, 3953, 3953, 4868, 7253,
  4868, 2247, 2832, 3512, 2247, 4868, 4868, 4868, 4868, 4868
]

/-- The array `static Il2CppMethodPointer s_methodPointers[130]`: each identifier of the
initializer is the address of the function declared under that symbol. -/
def s_methodPointers : List Il2CppMethodPointer :=
  cArray 130 Il2CppMethodPointer.null (s_methodPointers_init.map Il2CppMethodPointer.fn)

/-- The array `static const int32_t s_InvokerIndices[130]`. -/
def s_InvokerIndices : List Int :=
  cArray 130 0 s_InvokerIndices_init

/-- A value written in the brace initializer of the module descriptor. -/
inductive CInit where
  | str (s : String)
  | int (n : Int)
  | ident (name : String)
  | null
deriving DecidableEq

/-- The initializer of `const Il2CppCodeGenModule g_AssemblyU2DCSharp_CodeGenModule`, value by
value in the order written. -/
def g_AssemblyU2DCSharp_CodeGenModule : List CInit := [
  CInit.str "Assembly-CSharp.dll",
  CInit.int 130,
  CInit.ident "s_methodPointers",
  CInit.int 0,
  CInit.null,
  CInit.ident "s_InvokerIndices",
  CInit.int 0,
  CInit.null,
  CInit.int 0,
  CInit.null,
  CInit.int 0,
  CInit.null,
  CInit.null,
  CInit.null, -- module initializer
  CInit.null,
  CInit.null,
  CInit.null
]

/-- Modelled from the spec: the struct type `Il2CppCodeGenModule` is declared in
`codegen/il2cpp-codegen-metadata.h`, which is not among the sources. The positions of the
fields the specification names are read off the initializer: the name is the string literal
(position 0), the method count the integer before the method-pointer table (position 1), the
`methodPointers` and `invokerIndices` fields the two positions initialized with the arrays of
this file (2 and 5), and the module initializer the position the source comments as such
(13). -/
def moduleNamePos : Nat := 0

/-- Position of the method count, see `moduleNamePos`. -/
def methodPointerCountPos : Nat := 1

/-- Position of the `methodPointers` field, see `moduleNamePos`. -/
def methodPointersPos : Nat := 2

/-- Position of the `invokerIndices` field, see `moduleNamePos`. -/
def invokerIndicesPos : Nat := 5

/-- Position of the module initializer, see `moduleNamePos`. -/
def moduleInitializerPos : Nat := 13

/-- The method count a descriptor stores. -/
def methodPointerCount (m : List CInit) : Option Int :=
  match m[methodPointerCountPos]? with
  | some (CInit.int n) => some n
  | _ => none

/-- The declaration carrying row id `k`, when there is one. -/
def declOfRow (k : Nat) : Option MethodDecl :=
  methodDecls.find? (fun d => d.rowId = k)

/-- Invoker index of a declared method: row `k` of the metadata is element `k - 1` of
`s_InvokerIndices`. -/
def invokerIndexOf (d : MethodDecl) : Option Int :=
  s_InvokerIndices[d.rowId - 1]?

/-- Rows registered for the declaring type `t`, in table order. -/
def rowsOf (t : String) : List MethodDecl :=
  methodDecls.filter (fun d => d.declaringType = t)

/-- The inbound handlers of `AndroidBridge`, called by the Android host. -/
def inboundHandlers : List String :=
  ["ReceiveMapDataFromAndroid", "UpdateUserLocation", "CenterOnPoint", "UpdateVisitedPlaces",
    "FilterPOIsByType"]

/-- The DTO types the specification names. -/
def dtoTypes : List String := ["POIData", "MapBoundsData", "LatLngData"]

/-- The calling kinds: every reference type is one kind, each value type its own. -/
inductive Kind where
  | void | boolean | int32 | single | vector2 | color | object
deriving DecidableEq

/-- Kind of a managed type name as the signature comments write it; a name that is none of
the six value types (`System.String`, an array such as `UnityEngine.Vector2[]`, a class) is a
reference type. -/
def kindOf (t : String) : Kind :=
  if t = "System.Void" then Kind.void
  else if t = "System.Boolean" then Kind.boolean
  else if t = "System.Int32" then Kind.int32
  else if t = "System.Single" then Kind.single
  else if t = "UnityEngine.Vector2" then Kind.vector2
  else if t = "UnityEngine.Color" then Kind.color
  else Kind.object

/-- Calling shape of a declared signature: return kind and parameter kinds in order. -/
def shapeOf (d : MethodDecl) : Kind × List Kind :=
  (kindOf d.returnType, d.paramTypes.map kindOf)

/-- The Unity lifecycle callbacks. -/
def lifecycleCallbacks : List String := ["Awake", "Start", "Update", "OnDestroy"]

/-- The compiler-generated coroutine state machines of `POIAnimator`. -/
def stateMachineTypes : List String :=
  ["POIAnimator/<AppearAnimation>d__8", "POIAnimator/<ClickAnimation>d__10",
    "POIAnimator/<VisitedAnimation>d__12"]

/-- Method name and parameter types of the six rows of a state machine, in order. -/
def stateMachineMethods : List (String × List String) :=
  [(".ctor", ["System.Int32"]),
   ("System.IDisposable.Dispose", []),
   ("MoveNext", []),
   ("System.Collections.Generic.IEnumerator<System.Object>.get_Current", []),
   ("System.Collections.IEnumerator.Reset", []),
   ("System.Collections.IEnumerator.get_Current", [])]

/-! ## Auxiliary facts -/

theorem exists_of_isSome_of_map_eq {α β : Type} (o : Option α) (f : α → β) (b : Option β)
    (hs : o.isSome = true) (hm : o.map f = b) : ∃ a, o = some a ∧ b = some (f a) := by
  cases o with
  | none => simp at hs
  | some a => exact ⟨a, rfl, by simpa using hm.symm⟩

theorem isSome_getElem?_iff {α : Type} (l : List α) (i : Nat) :
    (l[i]?).isSome = true ↔ i < l.length := by
  rw [← not_iff_not]
  simp

theorem s_methodPointers_length : s_methodPointers.length = 130 := by decide!

theorem s_InvokerIndices_length : s_InvokerIndices.length = 130 := by decide!

theorem s_methodPointers_nodup : s_methodPointers.Nodup := by decide!

/-! ## The claims -/

/-- C1: the row ids of the declarations run from 0x00000001 to 0x00000082 consecutively, and
for every row id `k` from 1 to 130 the element `k - 1` of `s_methodPointers` is the function
declared under row id `k`; rows 0x03 and 0x82 are the two examples of the claim. -/
theorem methodPointers_in_row_order :
    methodDecls.map (fun d => d.rowId) = List.range' 0x00000001 130 ∧
    List.getLast? (methodDecls.map (fun d => d.rowId)) = some 0x00000082 ∧
    (∀ k : Nat, 1 ≤ k → k ≤ 130 →
      ∃ d, declOfRow k = some d ∧
        s_methodPointers[k - 1]? = some (Il2CppMethodPointer.fn d.symbol)) ∧
    s_methodPointers[0x03 - 1]? = some (Il2CppMethodPointer.fn
      "AndroidBridge_ReceiveMapDataFromAndroid_m2BE7486D0B400CDF0BAC435B022EB36078A69E1B") ∧
    s_methodPointers[0x82 - 1]? = some (Il2CppMethodPointer.fn
      "ImpressionData__ctor_mE302F744F3DB3D6CC79990F9A961BE1C72F0693D") := by
  refine ⟨by decide!, by decide!, ?_, by decide!, by decide!⟩
  have h : ∀ k : Fin 131, 1 ≤ k.val →
      ((declOfRow k.val).isSome = true ∧
        (declOfRow k.val).map (fun d => Il2CppMethodPointer.fn d.symbol)
          = s_methodPointers[k.val - 1]?) := by decide!
  intro k h1 h2
  obtain ⟨hs, hm⟩ := h ⟨k, by omega⟩ h1
  exact exists_of_isSome_of_map_eq _ _ _ hs hm

/-- C2: the method count stored in the module descriptor, 130, is the number of elements of
`s_methodPointers` and of `s_InvokerIndices` (each initializer lists 130 values), so an index
is valid in one table exactly when it is valid in the other, and exactly when it is below the
stored count. -/
theorem methodPointerCount_eq_table_lengths :
    methodPointerCount g_AssemblyU2DCSharp_CodeGenModule = some 130 ∧
    methodPointerCount g_AssemblyU2DCSharp_CodeGenModule
      = some (s_methodPointers.length : Int) ∧
    methodPointerCount g_AssemblyU2DCSharp_CodeGenModule
      = some (s_InvokerIndices.length : Int) ∧
    s_methodPointers_init.length = 130 ∧ s_InvokerIndices_init.length = 130 ∧
    ∀ i : Nat,
      ((s_methodPointers[i]?).isSome = true ↔ (s_InvokerIndices[i]?).isSome = true) ∧
      ∀ n : Int, methodPointerCount g_AssemblyU2DCSharp_CodeGenModule = some n →
        ((s_methodPointers[i]?).isSome = true ↔ (i : Int) < n) := by
  have hc : methodPointerCount g_AssemblyU2DCSharp_CodeGenModule = some 130 := by decide!
  refine ⟨hc, ?_, ?_, by decide!, by decide!, ?_⟩
  · rw [hc, s_methodPointers_length]; rfl
  · rw [hc, s_InvokerIndices_length]; rfl
  · intro i
    have hp : (s_methodPointers[i]?).isSome = true ↔ i < 130 := by
      rw [isSome_getElem?_iff, s_methodPointers_length]
    have hq : (s_InvokerIndices[i]?).isSome = true ↔ i < 130 := by
      rw [isSome_getElem?_iff, s_InvokerIndices_length]
    refine ⟨by rw [hp, hq], ?_⟩
    intro n hn
    rw [hc] at hn
    cases hn
    rw [hp]
    omega

/-- C3: every registered method can be resolved and invoked: for every index `i < 130` the
element `s_methodPointers[i]` is the address of a declared function, never NULL, and
`s_InvokerIndices[i]` is non-negative, never the sentinel -1. -/
theorem registered_methods_resolve_and_invoke (i : Nat) (hi : i < 130) :
    (∃ d ∈ methodDecls, s_methodPointers[i]? = some (Il2CppMethodPointer.fn d.symbol)) ∧
    s_methodPointers[i]? ≠ some Il2CppMethodPointer.null ∧
    (∃ x ∈ s_InvokerIndices, s_InvokerIndices[i]? = some x ∧ 0 ≤ x ∧ x ≠ -1) := by
  have h : ∀ k : Fin 130,
      (∃ d ∈ methodDecls, s_methodPointers[k.val]? = some (Il2CppMethodPointer.fn d.symbol)) ∧
      s_methodPointers[k.val]? ≠ some Il2CppMethodPointer.null ∧
      (∃ x ∈ s_InvokerIndices, s_InvokerIndices[k.val]? = some x ∧ 0 ≤ x ∧ x ≠ -1) := by
    decide!
  exact h ⟨i, hi⟩

/-- Witness of C3 at index 0, `AndroidBridge::Awake`. -/
theorem registered_methods_resolve_and_invoke_witness :
    0 < 130 ∧
    (∃ d ∈ methodDecls, s_methodPointers[0]? = some (Il2CppMethodPointer.fn d.symbol)) ∧
    s_methodPointers[0]? ≠ some Il2CppMethodPointer.null ∧
    (∃ x ∈ s_InvokerIndices, s_InvokerIndices[0]? = some x ∧ 0 ≤ x ∧ x ≠ -1) :=
  ⟨by decide, registered_methods_resolve_and_invoke 0 (by decide)⟩

/-- C4: the module descriptor registers only the two tables: its name is
"Assembly-CSharp.dll", its `methodPointers` and `invokerIndices` fields are initialized with
`s_methodPointers` and `s_InvokerIndices`, the module initializer is NULL, and every other
value besides the method count is either NULL or a count 0 followed by a NULL pointer. -/
theorem codeGenModule_registers_only_the_two_tables :
    g_AssemblyU2DCSharp_CodeGenModule[moduleNamePos]? = some (CInit.str "Assembly-CSharp.dll") ∧
    g_AssemblyU2DCSharp_CodeGenModule[methodPointersPos]?
      = some (CInit.ident "s_methodPointers") ∧
    g_AssemblyU2DCSharp_CodeGenModule[invokerIndicesPos]?
      = some (CInit.ident "s_InvokerIndices") ∧
    g_AssemblyU2DCSharp_CodeGenModule[moduleInitializerPos]? = some CInit.null ∧
    g_AssemblyU2DCSharp_CodeGenModule.length = 17 ∧
    ∀ p : Nat, p < 17 →
      p ∉ [moduleNamePos, methodPointerCountPos, methodPointersPos, invokerIndicesPos] →
      g_AssemblyU2DCSharp_CodeGenModule[p]? = some CInit.null ∨
      (g_AssemblyU2DCSharp_CodeGenModule[p]? = some (CInit.int 0) ∧
        g_AssemblyU2DCSharp_CodeGenModule[p + 1]? = some CInit.null) := by
  refine ⟨by decide, by decide, by decide, by decide, by decide, ?_⟩
  have h : ∀ p : Fin 17,
      p.val ∉ [moduleNamePos, methodPointerCountPos, methodPointersPos, invokerIndicesPos] →
      g_AssemblyU2DCSharp_CodeGenModule[p.val]? = some CInit.null ∨
      (g_AssemblyU2DCSharp_CodeGenModule[p.val]? = some (CInit.int 0) ∧
        g_AssemblyU2DCSharp_CodeGenModule[p.val + 1]? = some CInit.null) := by decide!
  intro p hp
  exact h ⟨p, hp⟩

/-- C5: each of the five inbound handlers of `AndroidBridge` is registered, and every row
registered for one of them has return type `System.Void`, exactly the one parameter
`System.String`, and the invoker index 3953, the same for all five. -/
theorem androidBridge_inbound_handlers_take_one_string :
    (∀ n ∈ inboundHandlers, ∃ d ∈ methodDecls,
      d.declaringType = "AndroidBridge" ∧ d.methodName = n) ∧
    (∀ d ∈ methodDecls, d.declaringType = "AndroidBridge" → d.methodName ∈ inboundHandlers →
      d.returnType = "System.Void" ∧ d.paramTypes = ["System.String"] ∧
      invokerIndexOf d = some 3953) ∧
    ((rowsOf "AndroidBridge").filter (fun d => d.methodName ∈ inboundHandlers)).length = 5 := by
  refine ⟨by decide!, by decide!, by decide!⟩

/-- C6 as stated fails: row 0x0000005C registers `System.String POIData::GetEmoji()`, a
method of the DTO type `POIData` that is not a constructor. -/
theorem poiData_registers_a_behaviour_method :
    declOfRow 0x0000005C = some (MethodDecl.mk 0x0000005C "System.String" "POIData" "GetEmoji" []
      "POIData_GetEmoji_mBFE57C443F531B99712592A8E1C474566CD40125") ∧
    "POIData" ∈ dtoTypes ∧ "GetEmoji" ≠ ".ctor" ∧
    s_methodPointers[0x0000005C - 1]? = some (Il2CppMethodPointer.fn
      "POIData_GetEmoji_mBFE57C443F531B99712592A8E1C474566CD40125") ∧
    ¬ (∀ t ∈ dtoTypes, ∀ d ∈ methodDecls, d.declaringType = t → d.methodName = ".ctor") := by
  refine ⟨by decide!, by decide!, by decide!, by decide!, by decide!⟩

/-- C6 amended: every DTO type the specification names has rows in the table; every method
registered for `MapBoundsData` and `LatLngData` is a constructor, each of the two types
registering exactly its parameterless constructor; `POIData` registers exactly three rows,
its two constructors (rows 0x5A and 0x5B) and the one behaviour method
`System.String GetEmoji()` (row 0x5C), so every method registered for `POIData` is a
constructor or `GetEmoji`. -/
theorem dto_types_register_constructors_and_GetEmoji :
    (∀ t ∈ dtoTypes, rowsOf t ≠ []) ∧
    (∀ d ∈ methodDecls, d.declaringType ∈ ["MapBoundsData", "LatLngData"] →
      d.methodName = ".ctor") ∧
    (∀ d ∈ methodDecls, d.declaringType = "POIData" →
      d.methodName = ".ctor" ∨
      (d.methodName = "GetEmoji" ∧ d.returnType = "System.String" ∧ d.paramTypes = [])) ∧
    ((rowsOf "POIData").filter (fun d => d.methodName ≠ ".ctor")).length = 1 ∧
    ((rowsOf "POIData").filter (fun d => d.methodName = ".ctor")).length = 2 ∧
    (rowsOf "POIData").map (fun d => (d.rowId, d.returnType, d.methodName, d.paramTypes))
      = [(0x0000005A, "System.Void", ".ctor", []),
         (0x0000005B, "System.Void", ".ctor",
           ["System.String", "System.String", "System.String", "System.Single",
             "System.Single"]),
         (0x0000005C, "System.String", "GetEmoji", [])] ∧
    (rowsOf "MapBoundsData").map (fun d => (d.rowId, d.returnType, d.methodName, d.paramTypes))
      = [(0x00000010, "System.Void", ".ctor", [])] ∧
    (rowsOf "LatLngData").map (fun d => (d.rowId, d.returnType, d.methodName, d.paramTypes))
      = [(0x00000012, "System.Void", ".ctor", [])] ∧
    (∀ d ∈ methodDecls, d.declaringType ∈ dtoTypes →
      ∃ p, s_methodPointers[d.rowId - 1]? = some p ∧ p = Il2CppMethodPointer.fn d.symbol) := by
  refine ⟨by decide!, by decide!, by decide!, by decide!, by decide!, by decide!, by decide!,
    by decide!, ?_⟩
  have h : ∀ d ∈ methodDecls, d.declaringType ∈ dtoTypes →
      s_methodPointers[d.rowId - 1]? = some (Il2CppMethodPointer.fn d.symbol) := by decide!
  intro d hd ht
  exact ⟨_, h d hd ht, rfl⟩

/-- C7: the invoker index determines the calling shape: when two rows `i` and `j` of the
tables carry the same invoker index, their declared signatures have the same number of
parameters, the same parameter kinds position by position, and the same return kind. -/
theorem invoker_index_determines_shape (i j : Nat) (hi : i < 130) (hj : j < 130)
    (h : s_InvokerIndices[i]? = s_InvokerIndices[j]?) :
    ∃ d₁ d₂, declOfRow (i + 1) = some d₁ ∧ declOfRow (j + 1) = some d₂ ∧
      d₁.paramTypes.length = d₂.paramTypes.length ∧
      (∀ p : Nat, (d₁.paramTypes[p]?).map kindOf = (d₂.paramTypes[p]?).map kindOf) ∧
      kindOf d₁.returnType = kindOf d₂.returnType := by
  have hs : ∀ k : Fin 130, (declOfRow (k.val + 1)).isSome = true := by decide!
  have hm : ∀ a : Fin 130, ∀ b : Fin 130,
      s_InvokerIndices[a.val]? = s_InvokerIndices[b.val]? →
      (declOfRow (a.val + 1)).map shapeOf = (declOfRow (b.val + 1)).map shapeOf := by decide!
  obtain ⟨d₁, h₁⟩ := Option.isSome_iff_exists.mp (hs ⟨i, hi⟩)
  obtain ⟨d₂, h₂⟩ := Option.isSome_iff_exists.mp (hs ⟨j, hj⟩)
  have he := hm ⟨i, hi⟩ ⟨j, hj⟩ h
  simp only [h₁, h₂, Option.map_some', Option.some.injEq, shapeOf, Prod.mk.injEq] at he
  refine ⟨d₁, d₂, h₁, h₂, ?_, ?_, he.1⟩
  · simpa using congrArg List.length he.2
  · intro p
    have := congrArg (fun l => l[p]?) he.2
    simpa [List.getElem?_map] using this

/-- Witness of C7 at rows 0x03 and 0x08: `ReceiveMapDataFromAndroid(System.String)` and
`SendPOIClickedEvent(POIData)` share the invoker index 3953. -/
theorem invoker_index_determines_shape_witness :
    s_InvokerIndices[2]? = s_InvokerIndices[7]? ∧
    ∃ d₁ d₂, declOfRow (2 + 1) = some d₁ ∧ declOfRow (7 + 1) = some d₂ ∧
      d₁.paramTypes.length = d₂.paramTypes.length ∧
      (∀ p : Nat, (d₁.paramTypes[p]?).map kindOf = (d₂.paramTypes[p]?).map kindOf) ∧
      kindOf d₁.returnType = kindOf d₂.returnType :=
  ⟨by decide!, invoker_index_determines_shape 2 7 (by decide) (by decide) (by decide!)⟩

/-- C8: a row has invoker index 4868 exactly when its declared signature returns
`System.Void` and takes no parameter; every parameterless constructor and every lifecycle
callback (Awake, Start, Update, OnDestroy) of the table has invoker index 4868. -/
theorem invoker_4868_iff_void_no_params (d : MethodDecl) (hd : d ∈ methodDecls) :
    (invokerIndexOf d = some 4868 ↔ (d.returnType = "System.Void" ∧ d.paramTypes = [])) ∧
    ((d.methodName = ".ctor" ∧ d.paramTypes = []) → invokerIndexOf d = some 4868) ∧
    (d.methodName ∈ lifecycleCallbacks → invokerIndexOf d = some 4868) := by
  have h : ∀ e ∈ methodDecls,
      (invokerIndexOf e = some 4868 ↔ (e.returnType = "System.Void" ∧ e.paramTypes = [])) ∧
      ((e.methodName = ".ctor" ∧ e.paramTypes = []) → invokerIndexOf e = some 4868) ∧
      (e.methodName ∈ lifecycleCallbacks → invokerIndexOf e = some 4868) := by decide!
  exact h d hd

/-- Witness of C8 at row 0x0D, the lifecycle callback `AndroidBridge::OnDestroy`. -/
theorem invoker_4868_iff_void_no_params_witness :
    declOfRow 0x0000000D = some (MethodDecl.mk 0x0000000D "System.Void" "AndroidBridge"
      "OnDestroy" [] "AndroidBridge_OnDestroy_mB75B22B15B026AC3D1D9A72E8B18FCCA096015F9") ∧
    invokerIndexOf (MethodDecl.mk 0x0000000D "System.Void" "AndroidBridge"
      "OnDestroy" [] "AndroidBridge_OnDestroy_mB75B22B15B026AC3D1D9A72E8B18FCCA096015F9")
      = some 4868 :=
  ⟨by decide!,
    ((invoker_4868_iff_void_no_params (MethodDecl.mk 0x0000000D "System.Void" "AndroidBridge"
      "OnDestroy" [] "AndroidBridge_OnDestroy_mB75B22B15B026AC3D1D9A72E8B18FCCA096015F9")
      (by decide!)).2.2 (by decide!))⟩

/-- C9: the method-pointer table is injective: two different indices below 130 hold
different function symbols. -/
theorem methodPointers_injective (i j : Nat) (hi : i < 130) (hj : j < 130) (hne : i ≠ j) :
    s_methodPointers[i]? ≠ s_methodPointers[j]? := by
  intro h
  have hi2 : i < s_methodPointers.length := by rw [s_methodPointers_length]; exact hi
  have hj2 : j < s_methodPointers.length := by rw [s_methodPointers_length]; exact hj
  rw [List.getElem?_eq_getElem hi2, List.getElem?_eq_getElem hj2, Option.some.injEq] at h
  exact hne ((List.Nodup.getElem_inj_iff s_methodPointers_nodup).mp h)

/-- Witness of C9 at indices 46 and 47, the two overloads of `MapUIManager::FilterByTypes`. -/
theorem methodPointers_injective_witness :
    (declOfRow 47).map (fun d => d.methodName) = some "FilterByTypes" ∧
    (declOfRow 48).map (fun d => d.methodName) = some "FilterByTypes" ∧
    s_methodPointers[46]? ≠ s_methodPointers[47]? :=
  ⟨by decide!, by decide!, methodPointers_injective 46 47 (by decide) (by decide) (by decide)⟩

/-- C10: each of the three coroutine state machines of `POIAnimator` registers exactly six
rows with consecutive row ids, in the order .ctor(Int32), IDisposable.Dispose, MoveNext,
IEnumerator<Object>.get_Current, IEnumerator.Reset, IEnumerator.get_Current, and the invoker
indices of the six rows are 3933, 4868, 4686, 4755, 4868, 4755. -/
theorem state_machines_registered_identically (t : String) (ht : t ∈ stateMachineTypes) :
    (rowsOf t).length = 6 ∧
    (∃ s : Nat, (rowsOf t).map (fun d => d.rowId) = List.range' s 6) ∧
    (rowsOf t).map (fun d => (d.methodName, d.paramTypes)) = stateMachineMethods ∧
    (rowsOf t).map invokerIndexOf
      = [some 3933, some 4868, some 4686, some 4755, some 4868, some 4755] := by
  have h : ∀ u ∈ stateMachineTypes,
      (rowsOf u).length = 6 ∧
      (∃ s ∈ (rowsOf u).map (fun d => d.rowId),
        (rowsOf u).map (fun d => d.rowId) = List.range' s 6) ∧
      (rowsOf u).map (fun d => (d.methodName, d.paramTypes)) = stateMachineMethods ∧
      (rowsOf u).map invokerIndexOf
        = [some 3933, some 4868, some 4686, some 4755, some 4868, some 4755] := by decide!
  obtain ⟨h1, ⟨s, _, h2⟩, h3, h4⟩ := h t ht
  exact ⟨h1, ⟨s, h2⟩, h3, h4⟩

/-- Witness of C10 at the state machine of `ClickAnimation`. -/
theorem state_machines_registered_identically_witness :
    (rowsOf "POIAnimator/<ClickAnimation>d__10").length = 6 ∧
    (∃ s : Nat, (rowsOf "POIAnimator/<ClickAnimation>d__10").map (fun d => d.rowId)
      = List.range' s 6) ∧
    (rowsOf "POIAnimator/<ClickAnimation>d__10").map (fun d => (d.methodName, d.paramTypes))
      = stateMachineMethods ∧
    (rowsOf "POIAnimator/<ClickAnimation>d__10").map invokerIndexOf
      = [some 3933, some 4868, some 4686, some 4755, some 4868, some 4755] :=
  state_machines_registered_identically "POIAnimator/<ClickAnimation>d__10" (by decide!)

end AssemblyCSharpCodeGen
